import Mathlib

/-!
Shallow embedding of the MQTT-Alert alert engine (src/mqttalert/alerts.py,
src/mqttemail/mqtt.py).  Timestamps are modelled as integers (seconds);
`dt.datetime.now()` becomes an explicit `now : Int` argument, and
`dt.timedelta` values become integer second counts.  Python exceptions are
modelled with `Except` / an explicit error constructor in the result.
-/

deriving instance DecidableEq for Except

namespace MqttAlert

/-- Python exceptions raised by the code under study.  The payload strings of
`valueError` / `typeError` reproduce the messages in the source (the source
also appends the repr of the message dict to the missing-variable message;
that suffix is not modelled). -/
inductive PyError where
  | valueError (msg : String)
  | typeError (msg : String)
  | keyError (key : String)
  | attributeError
  | nameError (n : String)
  | compileError
deriving DecidableEq, Repr

/-- A single-quote character as a string, so that no string literal in this
file carries a quote character directly. -/
def squote : String := String.mk [Char.ofNat 39]

/-- A value stored in an MQTT message payload dict (decoded JSON): the
fragment used by the program needs only strings and integers. -/
inductive MVal where
  | str (s : String)
  | int (n : Int)
deriving DecidableEq, Repr

/-- Python `str(val)` as applied in Alert.check: a string is left unchanged
(`isinstance(val, str)`), an integer is rendered in decimal. -/
def MVal.pyStr : MVal → String
  | .str s => s
  | .int n => toString n

/-- MqttMessage (src/mqttemail/mqtt.py): a topic plus a decoded JSON payload
dict, modelled as an association list with unique keys. -/
structure MqttMessage where
  topic : String
  data : List (String × MVal)
deriving DecidableEq, Repr

/-- Regex class `[_a-zA-Z0-9]` from Alert.condition setter: underscore,
ASCII letter, or ASCII digit. -/
def isIdentChar (c : Char) : Bool := c = '_' || c.isAlpha || c.isDigit

/-- Index of the first character not in `[_a-zA-Z0-9]`, i.e. the result of
`re.search(r"[^_a-zA-Z0-9]", value)`; `none` when the regex does not match
(in which case the source calls `.start()` on `None`, an AttributeError). -/
def firstNonIdent : List Char → Option Nat
  | [] => none
  | c :: cs => if isIdentChar c then (firstNonIdent cs).map (· + 1) else some 0

/-- The three fields the condition setter assigns atomically:
`_condition` (the raw string), `_variable` (`value[:idx]`) and
`_expr` (`value[idx:]`). -/
structure ParsedCondition where
  raw : String
  var : String
  expr : String
deriving DecidableEq, Repr

/-- Alert (src/mqttalert/alerts.py).  `condition` bundles `_condition`,
`_variable`, `_expr`, which the source only ever assigns together in the
condition setter and which all start out `None`.  Defaults mirror
`__init__`: `period_minimum` 60 minutes, `period_maximum` 1 day. -/
structure Alert where
  topic : Option String := none
  condition : Option ParsedCondition := none
  email : Option String := none
  period_minimum : Int := 3600
  period_maximum : Int := 86400
  message_last_received : Int := 0
  message_last_check : Int := 0
deriving DecidableEq, Repr

/-- The `condition` property setter: find the first non-identifier
character; `None.start()` is an AttributeError; boundary at position 0 is
rejected with ValueError; otherwise `_condition`, `_variable`, `_expr` are
assigned.  No validation of the remainder is performed. -/
def Alert.setCondition (a : Alert) (value : String) : Except PyError Alert :=
  match firstNonIdent value.data with
  | none => .error .attributeError
  | some idx =>
    if idx < 1 then
      .error (.valueError ("Condition must be in the form " ++ squote ++
        "variable test value" ++ squote))
    else
      let c : ParsedCondition :=
        ⟨value, ⟨value.data.take idx⟩, ⟨value.data.drop idx⟩⟩
      .ok { a with condition := some c }

/-- Alert.__init__: optional topic, condition (parsed through the setter,
which may raise), email, and the two periods with their defaults; both
timestamp fields are set to the construction time `now`. -/
def Alert.init (topic condition email : Option String)
    (period_minimum period_maximum : Option Int) (now : Int) :
    Except PyError Alert :=
  let a : Alert := {}
  let a := match topic with
    | some t => { a with topic := some t }
    | none => a
  match (match condition with
    | some c => a.setCondition c
    | none => .ok a) with
  | .error e => .error e
  | .ok a =>
    let a := match period_minimum with
      | some p => { a with period_minimum := p }
      | none => a
    let a := match period_maximum with
      | some p => { a with period_maximum := p }
      | none => a
    let a := match email with
      | some e => { a with email := some e }
      | none => a
    .ok { a with message_last_received := now, message_last_check := now }

/-! ### Model of the `eval` call

`Alert.check` evaluates `eval(f"{val}{self.condition_expr}")`: the observed
value rendered as text, concatenated with the stored expression text, handed
to the general-purpose Python evaluator.  We model Python evaluation on the
restricted expression fragment this splicing is meant to produce:
`<atom><op><atom>` where an atom is a decimal integer literal (optionally
negated) or an identifier.  An identifier evaluates to a NameError (no
bindings are in scope inside `eval`); any operand of another shape (floats,
quoted strings, chained comparisons, empty operands, a lone `=` or `!`) is
lumped into `compileError`, standing for the SyntaxError Python raises
before evaluation. -/

/-- Characters that can begin a comparison operator. -/
def isOpStartChar (c : Char) : Bool := c = '<' || c = '>' || c = '=' || c = '!'

/-- Split the expression text at the first operator-start character. -/
def splitAtOpChar : List Char → Option (List Char × List Char)
  | [] => none
  | c :: cs =>
    if isOpStartChar c then some ([], c :: cs)
    else (splitAtOpChar cs).map (fun p => (c :: p.1, p.2))

/-- The six comparison operators. -/
inductive CmpOp where
  | lt | le | gt | ge | eq | ne
deriving DecidableEq, Repr

/-- Read an operator from the head of the remainder; two-character
operators take precedence; a lone `=` or `!` does not parse. -/
def readOp : List Char → Option (CmpOp × List Char)
  | '<' :: '=' :: rest => some (.le, rest)
  | '>' :: '=' :: rest => some (.ge, rest)
  | '=' :: '=' :: rest => some (.eq, rest)
  | '!' :: '=' :: rest => some (.ne, rest)
  | '<' :: rest => some (.lt, rest)
  | '>' :: rest => some (.gt, rest)
  | _ => none

/-- An operand of the modelled expression fragment. -/
inductive Atom where
  | intLit (n : Int)
  | name (s : String)
  | malformed
deriving DecidableEq, Repr

/-- Decimal digits to a natural number. -/
def digitsToNat (cs : List Char) : Nat :=
  cs.foldl (fun acc c => acc * 10 + (c.toNat - 48)) 0

/-- Classify an operand: a nonempty all-digit run (no leading zero unless it
is the single digit 0) is an integer literal, optionally preceded by a
minus sign; a nonempty identifier run starting with a letter or underscore
is a name; anything else is outside the modelled fragment. -/
def classifyAtom : List Char → Atom
  | [] => .malformed
  | c :: rest =>
    if c = '-' then
      match rest with
      | [] => .malformed
      | d :: ds =>
        if (d :: ds).all Char.isDigit && (d ≠ '0' || ds = []) then
          .intLit (-(digitsToNat (d :: ds)))
        else .malformed
    else if (c :: rest).all Char.isDigit then
      if c ≠ '0' || rest = [] then .intLit (digitsToNat (c :: rest))
      else .malformed
    else if (c.isAlpha || c = '_') && (c :: rest).all isIdentChar then
      .name ⟨c :: rest⟩
    else .malformed

/-- Apply a comparison operator to two integers. -/
def CmpOp.apply : CmpOp → Int → Int → Bool
  | .lt, x, y => x < y
  | .le, x, y => x ≤ y
  | .gt, x, y => x > y
  | .ge, x, y => x ≥ y
  | .eq, x, y => x = y
  | .ne, x, y => x ≠ y

/-- Model of Python `eval` on the comparison fragment: compile errors
surface first; then the left operand is resolved before the right, so an
identifier on either side raises NameError; two integer literals compare
numerically. -/
def pyEvalCmp (s : String) : Except PyError Bool :=
  match splitAtOpChar s.data with
  | none => .error .compileError
  | some (lhs, rest) =>
    match readOp rest with
    | none => .error .compileError
    | some (op, rhs) =>
      match classifyAtom lhs, classifyAtom rhs with
      | .malformed, _ => .error .compileError
      | _, .malformed => .error .compileError
      | .name n, _ => .error (.nameError n)
      | _, .name n => .error (.nameError n)
      | .intLit x, .intLit y => .ok (op.apply x y)

/-! ### Alert.check -/

/-- The distinct exit points of Alert.check, in source order: return at the
topic test, return inside the minimum-period test, return when no condition
is configured, `return False` when the condition is not met, and fall-through
after the condition was met (whether or not an email went out). -/
inductive CheckOutcome where
  | noMatch
  | suppressed
  | noCondition
  | conditionNotMet
  | fired
deriving DecidableEq, Repr

/-- Result of one call to Alert.check: a normal exit or a raised exception. -/
inductive CheckResult where
  | ok (o : CheckOutcome)
  | err (e : PyError)
deriving DecidableEq, Repr

/-- One outbound email handed to `gmail.email_send(self.email, body,
subject=subject)`. -/
structure Email where
  recipient : String
  body : String
  subject : String
deriving DecidableEq, Repr

/-- Python f-string interpolation of an optional string (None prints as
None). -/
def optStr : Option String → String
  | none => "None"
  | some s => s

/-- The subject line `f"Alert: {topic!r-ish}, {condition!r-ish}"` built in
Alert.check (single quotes around both interpolations, as in the source). -/
def Alert.subjectLine (a : Alert) : String :=
  "Alert: " ++ squote ++ optStr a.topic ++ squote ++ ", " ++ squote ++
    optStr (a.condition.map (·.raw)) ++ squote

/-- The body text built in Alert.check (including the Satifies typo). -/
def bodyText (m : MqttMessage) (varName val expr : String) :
    String :=
  "Alert on: " ++ m.topic ++ ".\n" ++
  "Variable: " ++ varName ++ " = " ++ val ++ ".\n" ++
  "Satifies alert condition: " ++ varName ++ " " ++ expr

/-- Alert.check after the topic test has passed: update
`_message_last_received`, apply the minimum-period suppression test against
`_message_last_check`, record the check time, then look up the condition
variable in the payload (ValueError when absent), splice its text form with
`_expr` and run the evaluator; on a true comparison a notification goes out
only when both a gmail sink and a non-falsy email address are present. -/
def Alert.checkAfterTopic (a : Alert) (message : MqttMessage) (now : Int)
    (gmail : Bool) : Alert × CheckResult × List Email :=
  let a := { a with message_last_received := now }
  if now - a.message_last_check < a.period_minimum then
    (a, .ok .suppressed, [])
  else
    let a := { a with message_last_check := now }
    match a.condition with
    | none => (a, .ok .noCondition, [])
    | some c =>
      match message.data.lookup c.var with
      | none =>
        (a, .err (.valueError ("Condition variable " ++ squote ++ c.var ++
          squote ++ " not in message data")), [])
      | some v =>
        let val := v.pyStr
        match pyEvalCmp (val ++ c.expr) with
        | .error e => (a, .err e, [])
        | .ok b =>
          if !b then (a, .ok .conditionNotMet, [])
          else
            if !gmail then (a, .ok .fired, [])
            else
              match a.email with
              | none => (a, .ok .fired, [])
              | some e =>
                if e = "" then (a, .ok .fired, [])
                else
                  (a, .ok .fired,
                    [⟨e, bodyText message c.var val c.expr, a.subjectLine⟩])

/-- Alert.check: when a topic filter is set, a message on a different topic
returns immediately; otherwise (or with no filter) evaluation proceeds. -/
def Alert.check (a : Alert) (message : MqttMessage) (now : Int)
    (gmail : Bool) : Alert × CheckResult × List Email :=
  match a.topic with
  | some t =>
    if message.topic ≠ t then (a, .ok .noMatch, [])
    else a.checkAfterTopic message now gmail
  | none => a.checkAfterTopic message now gmail

/-! ### AlertManager -/

/-- AlertManager: the ordered alert list plus whether a gmail sink is
configured (the sink itself is opaque; only its presence matters to the
control flow). -/
structure AlertManager where
  alerts : List Alert
  gmail : Bool
deriving DecidableEq, Repr

/-- The loop body of AlertManager._mqtt_message_handler:
`for alert in self._alerts: alert.check(message, self.gmail)`.  There is no
try/except around the calls, so an exception raised by one check aborts the
loop: the remaining alerts are returned untouched and the error propagates.
Emails sent by earlier, successful checks have already gone out. -/
def handleAlerts (alerts : List Alert) (m : MqttMessage) (now : Int)
    (gmail : Bool) : List Alert × Except PyError Unit × List Email :=
  match alerts with
  | [] => ([], .ok (), [])
  | a :: rest =>
    let r := a.check m now gmail
    match r.2.1 with
    | .err e => (r.1 :: rest, .error e, r.2.2)
    | .ok _ =>
      let t := handleAlerts rest m now gmail
      (r.1 :: t.1, t.2.1, r.2.2 ++ t.2.2)

/-- AlertManager._mqtt_message_handler over the whole manager state. -/
def AlertManager.mqttMessageHandler (mgr : AlertManager) (m : MqttMessage)
    (now : Int) : AlertManager × Except PyError Unit × List Email :=
  let r := handleAlerts mgr.alerts m now mgr.gmail
  ({ mgr with alerts := r.1 }, r.2.1, r.2.2)

/-- Mqtt._on_mqtt_message (src/mqttemail/mqtt.py) wraps the callback call in
try/except and logs failures, so an exception escaping the per-message loop
is swallowed at the transport layer: the process does not crash, but the
loop over the remaining alerts has already been abandoned. -/
def onMqttMessage (mgr : AlertManager) (m : MqttMessage) (now : Int) :
    AlertManager × List Email :=
  let r := mgr.mqttMessageHandler m now
  (r.1, r.2.2)

/-! ### Serialization (to_dict / to_json / from_dict / from_json)

The JSON layer is modelled at the level of parsed Python values: `PyVal`
covers the values that flow through these functions (JSON scalars, lists and
dicts, plus `datetime.timedelta`, which Alert.from_json reinstates before
calling Alert.from_dict).  `json.dumps` followed by `json.loads` is the
identity on JSON-representable values, so `AlertManager.to_json` composed
with the `json.loads` performed by `from_json` is modelled directly as a
`PyVal`-valued function.  `Alert.to_json` genuinely returns a string in the
source, and that string lands as a *string element* inside the manager-level
JSON — the heart of claim C6 — so it is modelled as a string here too. -/

/-- Parsed Python values flowing through the (de)serialization code. -/
inductive PyVal where
  | none
  | str (s : String)
  | timedelta (seconds : Int)
  | list (l : List PyVal)
  | dict (l : List (String × PyVal))
deriving Repr

/-- A JSON string literal as `json.dumps` renders it (the fields serialized
here never contain characters needing escapes). -/
def jsonStrLit (s : String) : String := "\"" ++ s ++ "\""

/-- An optional string as `json.dumps` renders it. -/
def jsonOptStr : Option String → String
  | Option.none => "null"
  | some s => jsonStrLit s

/-- Python `str(td.total_seconds())`: total_seconds returns a float, and our
periods are whole seconds, so the text carries a trailing `.0`. -/
def timedeltaTotalSecondsStr (p : Int) : String := toString p ++ ".0"

/-- Alert.to_json: the dict from Alert.to_dict with the two periods replaced
by `str(total_seconds())`, rendered by `json.dumps` (default separators). -/
def Alert.to_json (a : Alert) : String :=
  "\x7b\"topic\": " ++ jsonOptStr a.topic ++
  ", \"condition\": " ++ jsonOptStr (a.condition.map (·.raw)) ++
  ", \"email\": " ++ jsonOptStr a.email ++
  ", \"period_minimum\": " ++ jsonStrLit (timedeltaTotalSecondsStr a.period_minimum) ++
  ", \"period_maximum\": " ++ jsonStrLit (timedeltaTotalSecondsStr a.period_maximum) ++
  "\x7d"

/-- AlertManager.to_json, composed with the `json.loads` that any consumer
performs: a dict whose `alerts` entry is a *list of strings*, each string
being one alert serialized by Alert.to_json. -/
def AlertManager.to_json_value (mgr : AlertManager) : PyVal :=
  .dict [("alerts", .list (mgr.alerts.map (fun a => .str a.to_json)))]

/-- Alert.from_dict: rejects non-dict input with
TypeError("Data must be a dictionary."), then assigns topic, condition,
email and the two periods through their setters (each setter type-checks its
argument; the condition setter re-parses the condition string and can
itself raise). -/
def Alert.from_dict_py (a : Alert) (data : PyVal) : Except PyError Alert := do
  match data with
  | .dict l =>
    let a ← match l.lookup "topic" with
      | Option.none => .error (.keyError "topic")
      | some (.str s) => .ok { a with topic := some s }
      | some _ => .error (.typeError "MQTT topic must be a string.")
    let a ← match l.lookup "condition" with
      | Option.none => .error (.keyError "condition")
      | some (.str s) => a.setCondition s
      | some _ => .error (.typeError "Condition must be a string.")
    let a ← match l.lookup "email" with
      | Option.none => .error (.keyError "email")
      | some (.str s) => .ok { a with email := some s }
      | some _ => .error (.typeError "Email address must be a string.")
    let a ← match l.lookup "period_minimum" with
      | Option.none => .error (.keyError "period_minimum")
      | some (.timedelta p) => .ok { a with period_minimum := p }
      | some _ => .error (.typeError "Period minimum must be a timedelta.")
    let a ← match l.lookup "period_maximum" with
      | Option.none => .error (.keyError "period_maximum")
      | some (.timedelta p) => .ok { a with period_maximum := p }
      | some _ => .error (.typeError "Period maximum must be a timedelta.")
    pure a
  | _ => .error (.typeError "Data must be a dictionary.")

/-- AlertManager.from_dict:
`for alert in data["alerts"]: self.add(Alert().from_dict(alert))`.
Python Alert.from_dict returns None (it only mutates and then falls off the
end), so what is appended to the alert list is None for every successfully
processed record: the resulting elements are modelled as `Option Alert`,
with Lean `none` standing for the appended Python None.  Each record is
processed through a fresh `Alert()` (constructed at time `now`); the first
exception propagates and abandons the loop. -/
def AlertManager.from_dict_value (data : PyVal) (now : Int) :
    Except PyError (List (Option Alert)) :=
  match data with
  | .dict l =>
    match l.lookup "alerts" with
    | Option.none => .error (.keyError "alerts")
    | some (.list items) =>
      items.foldlM
        (fun acc item => do
          let _ ← Alert.from_dict_py
            { message_last_received := now, message_last_check := now } item
          pure (acc ++ [Option.none]))
        []
    | some _ => .error (.typeError "not iterable")
  | _ => .error (.typeError "Data must be a dictionary.")

/-- AlertManager.from_json: `json.loads` (already applied in the `PyVal`
model) followed by AlertManager.from_dict on a fresh manager. -/
def AlertManager.from_json_value (j : PyVal) (now : Int) :
    Except PyError (List (Option Alert)) :=
  AlertManager.from_dict_value j now

/-! ### Helper lemmas about Alert.check -/

/-- A message whose topic passes the filter makes check defer to
checkAfterTopic. -/
theorem Alert.check_matched (a : Alert) (m : MqttMessage) (now : Int)
    (g : Bool) (htop : a.topic = none ∨ a.topic = some m.topic) :
    a.check m now g = a.checkAfterTopic m now g := by
  rcases htop with h | h <;> simp [Alert.check, h]

/-- checkAfterTopic never reports a topic mismatch. -/
theorem Alert.checkAfterTopic_ne_noMatch (a : Alert) (m : MqttMessage)
    (now : Int) (g : Bool) :
    (a.checkAfterTopic m now g).2.1 ≠ .ok .noMatch := by
  unfold Alert.checkAfterTopic
  dsimp only
  repeat' split
  all_goals simp

/-- Inside the minimum period, checkAfterTopic returns Suppressed and only
advances the last-received timestamp. -/
theorem Alert.checkAfterTopic_suppressed (a : Alert) (m : MqttMessage)
    (now : Int) (g : Bool)
    (h : now - a.message_last_check < a.period_minimum) :
    a.checkAfterTopic m now g =
      ({ a with message_last_received := now }, .ok .suppressed, []) := by
  unfold Alert.checkAfterTopic
  dsimp only
  rw [if_pos h]

/-- Outside the minimum period, checkAfterTopic advances both timestamps and
does not report Suppressed. -/
theorem Alert.checkAfterTopic_evaluated (a : Alert) (m : MqttMessage)
    (now : Int) (g : Bool)
    (h : ¬ now - a.message_last_check < a.period_minimum) :
    (a.checkAfterTopic m now g).1 =
      { a with message_last_received := now, message_last_check := now } ∧
    (a.checkAfterTopic m now g).2.1 ≠ .ok .suppressed := by
  unfold Alert.checkAfterTopic
  dsimp only
  rw [if_neg h]
  repeat' split
  all_goals simp

/-- A set filter differing from the message topic short-circuits check. -/
theorem Alert.check_topic_mismatch (a : Alert) (m : MqttMessage)
    (now : Int) (g : Bool) (t : String)
    (ht : a.topic = some t) (hne : m.topic ≠ t) :
    a.check m now g = (a, .ok .noMatch, []) := by
  simp [Alert.check, ht, hne]

/-! ### Claim theorems -/

/-- C7 (confirmed): evaluating a Rule with a message whose topic does not
match the configured topic filter returns NoMatch, leaves the whole rule
state (both timestamp fields included) unchanged, and sends nothing. -/
theorem check_no_topic_match_no_mutation (a : Alert) (m : MqttMessage)
    (now : Int) (g : Bool) (t : String)
    (ht : a.topic = some t) (hne : m.topic ≠ t) :
    a.check m now g = (a, .ok .noMatch, []) :=
  Alert.check_topic_mismatch a m now g t ht hne

/-- Witness for C7 at a concrete rule and message. -/
theorem check_no_topic_match_no_mutation_witness :
    ({ topic := some "device/a" } : Alert).check ⟨"device/b", []⟩ 7 true
      = ({ topic := some "device/a" }, .ok .noMatch, []) :=
  check_no_topic_match_no_mutation _ _ _ _ "device/a" rfl (by decide)

/-- C3 (counterexample): a filter ending in a wildcard segment does not
match a topic extending that prefix: the rule with filter device/# reports
NoMatch for a message on device/sensor1, because Alert.check compares topics
by exact string equality only. -/
theorem check_wildcard_filter_is_literal :
    ({ topic := some "device/#",
       condition := some ⟨"temperature<33", "temperature", "<33"⟩,
       period_minimum := 0 } : Alert).check
        ⟨"device/sensor1", [("temperature", .int 30)]⟩ 5 true
      = ({ topic := some "device/#",
           condition := some ⟨"temperature<33", "temperature", "<33"⟩,
           period_minimum := 0 }, .ok .noMatch, []) := by
  decide

/-- C3 (amended): a None filter matches every topic; a set filter matches by
exact string equality only (a trailing # wildcard segment is not expanded:
broker-side subscription is what handles wildcards); check returns NoMatch
exactly when a filter is set and differs from the message topic. -/
theorem check_noMatch_iff_topic_mismatch (a : Alert) (m : MqttMessage)
    (now : Int) (g : Bool) :
    (a.check m now g).2.1 = .ok .noMatch ↔
      ∃ t, a.topic = some t ∧ m.topic ≠ t := by
  cases h : a.topic with
  | none =>
    simp [Alert.check, h, Alert.checkAfterTopic_ne_noMatch a m now g]
  | some t =>
    by_cases he : m.topic = t
    · simp [Alert.check, h, he, Alert.checkAfterTopic_ne_noMatch a m now g]
    · simp [Alert.check, h, he]

/-- Witness for C3 amended: a concrete mismatching pair yields NoMatch. -/
theorem check_noMatch_iff_topic_mismatch_witness :
    (({ topic := some "x" } : Alert).check ⟨"y", []⟩ 0 false).2.1
      = .ok .noMatch :=
  (check_noMatch_iff_topic_mismatch _ _ _ _).mpr ⟨"x", rfl, by decide⟩

/-- C9 (confirmed): period_maximum (maxSilenceInterval) is never read by
check: changing it changes nothing in the outcome, the emails, or the other
state fields, and it is itself carried through unchanged. -/
theorem check_period_maximum_never_read (a : Alert) (m : MqttMessage)
    (now : Int) (g : Bool) (v : Int) :
    Alert.check { a with period_maximum := v } m now g =
      ({ (Alert.check a m now g).1 with period_maximum := v },
        (Alert.check a m now g).2.1, (Alert.check a m now g).2.2) := by
  cases a
  unfold Alert.check Alert.checkAfterTopic
  dsimp only
  repeat' split
  all_goals simp_all [Alert.subjectLine]

/-- Successful construction pins both timestamp fields to the construction
time. -/
theorem Alert.init_ok_timestamps (topic cond email : Option String)
    (pmin pmax : Option Int) (now : Int) (a : Alert)
    (h : Alert.init topic cond email pmin pmax now = .ok a) :
    a.message_last_received = now ∧ a.message_last_check = now := by
  unfold Alert.init at h
  dsimp only at h
  split at h
  · exact absurd h (by simp)
  · injection h with h2
    rw [← h2]
    exact ⟨rfl, rfl⟩

/-- C2 (confirmed): once a rule has performed a non-suppressed evaluation at
time t1, a second matching message arriving within the minimum suppression
interval is Suppressed: the second call returns early with no effect beyond
updating the last-received timestamp, so the two messages never both fire. -/
theorem second_message_within_window_suppressed
    (a a1 : Alert) (m1 m2 : MqttMessage) (t1 t2 : Int) (g : Bool)
    (r1 : CheckResult) (es1 : List Email)
    (h1 : a.check m1 t1 g = (a1, r1, es1))
    (hnm : r1 ≠ .ok .noMatch) (hns : r1 ≠ .ok .suppressed)
    (htop : a1.topic = none ∨ a1.topic = some m2.topic)
    (hlt : t2 - t1 < a.period_minimum) :
    a1.check m2 t2 g =
      ({ a1 with message_last_received := t2 }, .ok .suppressed, []) := by
  have hmatch : a.topic = none ∨ a.topic = some m1.topic := by
    cases h : a.topic with
    | none => exact Or.inl rfl
    | some t =>
      by_cases he : m1.topic = t
      · subst he
        exact Or.inr rfl
      · exfalso
        rw [Alert.check_topic_mismatch a m1 t1 g t h he] at h1
        rw [Prod.ext_iff, Prod.ext_iff] at h1
        exact hnm h1.2.1.symm
  rw [Alert.check_matched a m1 t1 g hmatch] at h1
  by_cases hg : t1 - a.message_last_check < a.period_minimum
  · exfalso
    rw [Alert.checkAfterTopic_suppressed a m1 t1 g hg] at h1
    rw [Prod.ext_iff, Prod.ext_iff] at h1
    exact hns h1.2.1.symm
  · have hev := Alert.checkAfterTopic_evaluated a m1 t1 g hg
    rw [h1] at hev
    have ha1 : a1 =
        { a with message_last_received := t1, message_last_check := t1 } :=
      hev.1
    rw [Alert.check_matched a1 m2 t2 g htop]
    apply Alert.checkAfterTopic_suppressed
    rw [ha1]
    simpa using hlt

/-- Witness for C2: an evaluated (NoCondition) pass at t=0, then a message
at t=5 inside the 10-second window comes back Suppressed. -/
theorem second_message_within_window_suppressed_witness :
    ({ period_minimum := 10, message_last_received := -100,
       message_last_check := -100 } : Alert).check ⟨"t", []⟩ 0 true =
      ({ period_minimum := 10 }, .ok .noCondition, []) ∧
    ({ period_minimum := 10 } : Alert).check ⟨"t", []⟩ 5 true =
      ({ period_minimum := 10, message_last_received := 5 },
        .ok .suppressed, []) :=
  ⟨by decide,
    second_message_within_window_suppressed
      { period_minimum := 10, message_last_received := -100,
        message_last_check := -100 }
      { period_minimum := 10 } ⟨"t", []⟩ ⟨"t", []⟩ 0 5 true
      (.ok .noCondition) [] (by decide) (by decide) (by decide)
      (by decide) (by decide)⟩

/-- C10 (confirmed): construction initializes both timestamps to the
construction time, so a freshly constructed rule suppresses any matching
message that arrives less than the minimum suppression interval after
construction, even though no evaluation has ever been performed. -/
theorem fresh_rule_first_window_suppressed
    (topic cond email : Option String) (pmin pmax : Option Int)
    (t0 : Int) (a : Alert) (m : MqttMessage) (t : Int) (g : Bool)
    (hinit : Alert.init topic cond email pmin pmax t0 = .ok a)
    (htop : a.topic = none ∨ a.topic = some m.topic)
    (hlt : t - t0 < a.period_minimum) :
    a.message_last_received = t0 ∧ a.message_last_check = t0 ∧
    a.check m t g =
      ({ a with message_last_received := t }, .ok .suppressed, []) := by
  have hts := Alert.init_ok_timestamps topic cond email pmin pmax t0 a hinit
  refine ⟨hts.1, hts.2, ?_⟩
  rw [Alert.check_matched a m t g htop]
  apply Alert.checkAfterTopic_suppressed
  rw [hts.2]
  exact hlt

/-- Witness for C10: a rule built at t0=0 with a 10-second window suppresses
a matching message at t=5. -/
theorem fresh_rule_first_window_suppressed_witness :
    ({ period_minimum := 10 } : Alert).message_last_received = 0 ∧
    ({ period_minimum := 10 } : Alert).message_last_check = 0 ∧
    ({ period_minimum := 10 } : Alert).check ⟨"t", []⟩ 5 false =
      ({ period_minimum := 10, message_last_received := 5 },
        .ok .suppressed, []) :=
  fresh_rule_first_window_suppressed none none none (some 10) none 0
    { period_minimum := 10 } ⟨"t", []⟩ 5 false (by rfl) (by decide)
    (by decide)

/-- Partial evaluation of checkAfterTopic once the minimum period has
elapsed, a condition is configured and its variable is present: both
timestamps advance, and the rest of the behaviour is exactly the verdict of
the evaluator applied to the spliced text `str(val) + expr`. -/
theorem Alert.checkAfterTopic_cond_eval (a : Alert) (m : MqttMessage)
    (now : Int) (g : Bool) (c : ParsedCondition) (v : MVal)
    (hsup : ¬ now - a.message_last_check < a.period_minimum)
    (hcond : a.condition = some c)
    (hv : m.data.lookup c.var = some v) :
    a.checkAfterTopic m now g =
      (let a2 : Alert :=
        { a with message_last_received := now, message_last_check := now }
       match pyEvalCmp (v.pyStr ++ c.expr) with
       | .error e => (a2, .err e, [])
       | .ok false => (a2, .ok .conditionNotMet, [])
       | .ok true =>
         (a2, .ok .fired,
           if g then
             match a.email with
             | none => []
             | some e =>
               if e = "" then []
               else [⟨e, bodyText m c.var v.pyStr c.expr, a2.subjectLine⟩]
           else [])) := by
  unfold Alert.checkAfterTopic
  dsimp only
  rw [if_neg hsup, hcond]
  dsimp only
  rw [hv]
  dsimp only
  cases hpe : pyEvalCmp (v.pyStr ++ c.expr) with
  | error e => rfl
  | ok b =>
    cases b with
    | false => rfl
    | true =>
      cases g with
      | false => rfl
      | true =>
        cases a.email with
        | none => rfl
        | some e =>
          by_cases he : e = "" <;> simp [he]

/-- C1 (counterexample): the Scenario-B rule (condition status==ok, minimum
interval 0) applied to a matching message with string field status = ok does
not yield a Triggered outcome: the spliced text ok==ok names undefined
identifiers and the general evaluator raises NameError.  The first conjunct
shows this is the rule construction actually produces. -/
theorem status_eq_ok_raises_nameError :
    Alert.init none (some "status==ok") (some "a@b") (some 0) none 0 =
      .ok ({ condition := some ⟨"status==ok", "status", "==ok"⟩,
             email := some "a@b", period_minimum := 0 } : Alert) ∧
    ({ condition := some ⟨"status==ok", "status", "==ok"⟩,
       email := some "a@b", period_minimum := 0 } : Alert).check
        ⟨"device/x", [("status", .str "ok")]⟩ 0 true =
      ({ condition := some ⟨"status==ok", "status", "==ok"⟩,
         email := some "a@b", period_minimum := 0 },
        .err (.nameError "ok"), []) :=
  ⟨by decide, by decide⟩

/-- C1 (amended): for a matching, non-suppressed message whose payload
contains the condition variable, the comparison step does not coerce the two
sides to a common representation through a closed six-operator evaluation;
it splices `str(value)` with the stored operator-and-value text and hands
the result to the general-purpose evaluator, whose verdict (error included)
is the result of check. -/
theorem check_comparison_is_eval_splice (a : Alert) (m : MqttMessage)
    (now : Int) (g : Bool) (c : ParsedCondition) (v : MVal)
    (htop : a.topic = none ∨ a.topic = some m.topic)
    (hsup : ¬ now - a.message_last_check < a.period_minimum)
    (hcond : a.condition = some c)
    (hv : m.data.lookup c.var = some v) :
    (∀ e, pyEvalCmp (v.pyStr ++ c.expr) = .error e →
      a.check m now g =
        ({ a with message_last_received := now, message_last_check := now },
          .err e, [])) ∧
    (pyEvalCmp (v.pyStr ++ c.expr) = .ok false →
      a.check m now g =
        ({ a with message_last_received := now, message_last_check := now },
          .ok .conditionNotMet, [])) ∧
    (pyEvalCmp (v.pyStr ++ c.expr) = .ok true →
      (a.check m now g).2.1 = .ok .fired) := by
  rw [Alert.check_matched a m now g htop,
      Alert.checkAfterTopic_cond_eval a m now g c v hsup hcond hv]
  refine ⟨fun e he => ?_, fun hf => ?_, fun ht => ?_⟩
  · rw [he]
  · rw [hf]
  · rw [ht]

/-- Witness for C1 amended: a numeric comparison (temperature<33 against 30)
does fire through the evaluator. -/
theorem check_comparison_is_eval_splice_witness :
    (({ condition := some ⟨"temperature<33", "temperature", "<33"⟩,
        period_minimum := 0 } : Alert).check
        ⟨"d", [("temperature", .int 30)]⟩ 0 false).2.1 = .ok .fired :=
  (check_comparison_is_eval_splice
    { condition := some ⟨"temperature<33", "temperature", "<33"⟩,
      period_minimum := 0 }
    ⟨"d", [("temperature", .int 30)]⟩ 0 false
    ⟨"temperature<33", "temperature", "<33"⟩ (.int 30)
    (by decide) (by decide) rfl (by decide)).2.2 (by decide)

/-- C8 (confirmed): when the condition is met by a matching, non-suppressed
message but there is no gmail sink or no (or an empty) email address, check
still runs to completion — both timestamps advance exactly as in the
configured case — and no email is sent. -/
theorem fired_without_sink_no_email (a : Alert) (m : MqttMessage)
    (now : Int) (g : Bool) (c : ParsedCondition) (v : MVal)
    (htop : a.topic = none ∨ a.topic = some m.topic)
    (hsup : ¬ now - a.message_last_check < a.period_minimum)
    (hcond : a.condition = some c)
    (hv : m.data.lookup c.var = some v)
    (heval : pyEvalCmp (v.pyStr ++ c.expr) = .ok true)
    (hno : g = false ∨ a.email = none ∨ a.email = some "") :
    a.check m now g =
      ({ a with message_last_received := now, message_last_check := now },
        .ok .fired, []) ∧
    (a.check m now g).1 = (a.check m now true).1 := by
  rw [Alert.check_matched a m now g htop,
      Alert.check_matched a m now true htop,
      Alert.checkAfterTopic_cond_eval a m now g c v hsup hcond hv,
      Alert.checkAfterTopic_cond_eval a m now true c v hsup hcond hv,
      heval]
  constructor
  · rcases hno with rfl | h | h
    · rfl
    · simp [h]
    · simp [h]
  · rfl

/-- Witness for C8: a rule with no email address fires with no outbound
send, timestamps advanced. -/
theorem fired_without_sink_no_email_witness :
    ({ condition := some ⟨"temperature<33", "temperature", "<33"⟩,
       period_minimum := 0 } : Alert).check
        ⟨"d", [("temperature", .int 30)]⟩ 9 true =
      ({ condition := some ⟨"temperature<33", "temperature", "<33"⟩,
         period_minimum := 0, message_last_received := 9,
         message_last_check := 9 }, .ok .fired, []) :=
  (fired_without_sink_no_email
    { condition := some ⟨"temperature<33", "temperature", "<33"⟩,
      period_minimum := 0 }
    ⟨"d", [("temperature", .int 30)]⟩ 9 true
    ⟨"temperature<33", "temperature", "<33"⟩ (.int 30)
    (by decide) (by decide) rfl (by decide) (by decide)
    (Or.inr (Or.inl rfl))).1

/-- checkAfterTopic sends email only on the fired outcome. -/
theorem Alert.checkAfterTopic_emails_shape (a : Alert) (m : MqttMessage)
    (now : Int) (g : Bool) :
    (a.checkAfterTopic m now g).2.2 = [] ∨
      (a.checkAfterTopic m now g).2.1 = .ok .fired := by
  unfold Alert.checkAfterTopic
  dsimp only
  repeat' split
  all_goals simp

/-- check sends email only on the fired outcome. -/
theorem Alert.check_emails_shape (a : Alert) (m : MqttMessage)
    (now : Int) (g : Bool) :
    (a.check m now g).2.2 = [] ∨ (a.check m now g).2.1 = .ok .fired := by
  unfold Alert.check
  split
  · split
    · left
      rfl
    · exact Alert.checkAfterTopic_emails_shape _ _ _ _
  · exact Alert.checkAfterTopic_emails_shape _ _ _ _

/-- A check that raises sends nothing. -/
theorem Alert.check_err_no_email (a : Alert) (m : MqttMessage) (now : Int)
    (g : Bool) (e : PyError) (h : (a.check m now g).2.1 = .err e) :
    (a.check m now g).2.2 = [] := by
  rcases Alert.check_emails_shape a m now g with h2 | h2
  · exact h2
  · rw [h] at h2
    exact absurd h2 (by simp)

/-- C4 (counterexample): two identical rules needing the temperature field;
a message lacking it makes the first rule raise ValueError and the second
rule is returned untouched (its last-received timestamp is still 0, not 5):
the error stops evaluation of subsequent rules. -/
theorem error_stops_later_rules :
    handleAlerts
      [{ condition := some ⟨"temperature<33", "temperature", "<33"⟩,
         period_minimum := 0 },
       { condition := some ⟨"temperature<33", "temperature", "<33"⟩,
         period_minimum := 0 }]
      ⟨"device/x", []⟩ 5 true =
      ([{ condition := some ⟨"temperature<33", "temperature", "<33"⟩,
          period_minimum := 0, message_last_received := 5,
          message_last_check := 5 },
        { condition := some ⟨"temperature<33", "temperature", "<33"⟩,
          period_minimum := 0 }],
        .error (.valueError ("Condition variable " ++ squote ++
          "temperature" ++ squote ++ " not in message data")),
        []) := by
  decide

/-- C4 (amended): when the per-message pass errors, there is a first rule
whose check raised exactly that error and sent nothing, and every rule after
it is returned untouched — the loop has no per-rule exception handling, so
later rules are not evaluated for that message (the transport callback
wrapper then swallows the exception, so processing does not crash). -/
theorem handler_stops_at_first_error (alerts : List Alert)
    (m : MqttMessage) (now : Int) (g : Bool) (res : List Alert)
    (e : PyError) (es : List Email)
    (h : handleAlerts alerts m now g = (res, .error e, es)) :
    ∃ pre x post, alerts = pre ++ x :: post ∧
      (x.check m now g).2.1 = .err e ∧
      (x.check m now g).2.2 = [] ∧
      res.drop (pre.length + 1) = post := by
  induction alerts generalizing res es with
  | nil => exact absurd h (by simp [handleAlerts])
  | cons a rest ih =>
    unfold handleAlerts at h
    dsimp only at h
    rcases hrest : handleAlerts rest m now g with ⟨res2, r2, es2⟩
    split at h
    next e2 heq =>
      rw [Prod.ext_iff, Prod.ext_iff] at h
      obtain ⟨hres, herr, hes⟩ := h
      dsimp only at hres herr hes
      refine ⟨[], a, rest, by simp, ?_, ?_, ?_⟩
      · rw [heq]
        injection herr.symm with h3
        rw [h3]
      · apply Alert.check_err_no_email a m now g e
        rw [heq]
        injection herr.symm with h3
        rw [h3]
      · rw [← hres]
        simp
    next o heq =>
      rw [hrest] at h
      rw [Prod.ext_iff, Prod.ext_iff] at h
      obtain ⟨hres, herr, hes⟩ := h
      dsimp only at hres herr hes
      obtain ⟨pre, x, post, hsplit, hx1, hx2, hdrop⟩ :=
        ih res2 es2 (by rw [hrest, herr])
      refine ⟨a :: pre, x, post, by simp [hsplit], hx1, hx2, ?_⟩
      rw [← hres]
      simpa using hdrop

/-- Witness for C4 amended at the counterexample input. -/
theorem handler_stops_at_first_error_witness :
    ∃ pre x post,
      ([{ condition := some ⟨"temperature<33", "temperature", "<33"⟩,
          period_minimum := 0 },
        { condition := some ⟨"temperature<33", "temperature", "<33"⟩,
          period_minimum := 0 }] : List Alert) = pre ++ x :: post ∧
      (x.check ⟨"device/x", []⟩ 5 true).2.1 =
        .err (.valueError ("Condition variable " ++ squote ++
          "temperature" ++ squote ++ " not in message data")) ∧
      (x.check ⟨"device/x", []⟩ 5 true).2.2 = [] ∧
      ([{ condition := some ⟨"temperature<33", "temperature", "<33"⟩,
          period_minimum := 0, message_last_received := 5,
          message_last_check := 5 },
        { condition := some ⟨"temperature<33", "temperature", "<33"⟩,
          period_minimum := 0 }] : List Alert).drop (pre.length + 1) =
        post :=
  handler_stops_at_first_error _ ⟨"device/x", []⟩ 5 true _ _ []
    (by decide)

/-- String append acts as list append on the underlying characters. -/
theorem string_data_append (s t : String) :
    (s ++ t).data = s.data ++ t.data := rfl

/-- The first non-identifier index of an all-identifier run followed by a
non-identifier character is the length of the run. -/
theorem firstNonIdent_append (l : List Char) (c0 : Char) (r : List Char)
    (hall : l.all isIdentChar = true) (hc0 : isIdentChar c0 = false) :
    firstNonIdent (l ++ c0 :: r) = some l.length := by
  induction l with
  | nil => simp [firstNonIdent, hc0]
  | cons x xs ih =>
    rw [List.all_cons, Bool.and_eq_true] at hall
    simp [firstNonIdent, hall.1, ih hall.2]

/-- C5 (counterexample): the condition string x$5, whose remainder after the
identifier does not start with any of the six operators, is nevertheless
accepted at construction, with $5 stored as the expression — refuting the
claimed "fails iff" characterization. -/
theorem condition_without_operator_accepted :
    Alert.init none (some "x$5") none none none 0 =
      .ok ({ condition := some ⟨"x$5", "x", "$5"⟩ } : Alert) := by
  decide

/-- C5 (amended): the condition setter fails in exactly two ways — an
AttributeError crash when the string has no non-identifier character at all
(the regex search returns None), and a ValueError when the first character
is already a non-identifier — and otherwise accepts the string with the
remainder stored entirely unvalidated (no operator check), splitting at the
first non-identifier character; in particular every
well-formed ident-operator-value string is accepted with fieldName = ident
and expression = operator-plus-value. -/
theorem setCondition_characterization (a : Alert) :
    (∀ value : String, firstNonIdent value.data = none →
      a.setCondition value = .error .attributeError) ∧
    (∀ (c0 : Char) (rest : List Char), isIdentChar c0 = false →
      a.setCondition ⟨c0 :: rest⟩ =
        .error (.valueError ("Condition must be in the form " ++ squote ++
          "variable test value" ++ squote))) ∧
    (∀ (ident : String) (c0 : Char) (rest : List Char),
      ident.data ≠ [] → ident.data.all isIdentChar = true →
      isIdentChar c0 = false →
      a.setCondition (ident ++ ⟨c0 :: rest⟩) =
        .ok { a with condition :=
          (some ⟨ident ++ ⟨c0 :: rest⟩, ident, ⟨c0 :: rest⟩⟩) }) := by
  refine ⟨fun value h => ?_, fun c0 rest hc0 => ?_, ?_⟩
  · unfold Alert.setCondition
    rw [h]
  · unfold Alert.setCondition
    simp [firstNonIdent, hc0]
  · intro ident c0 rest hne hall hc0
    unfold Alert.setCondition
    rw [string_data_append, firstNonIdent_append ident.data c0 rest hall hc0]
    dsimp only
    rw [if_neg (by
      simp only [Nat.not_lt]
      exact Nat.one_le_iff_ne_zero.mpr
        (fun h0 => hne (List.length_eq_zero.mp h0)))]
    rw [List.take_left, List.drop_left]

/-- Witness for C5 amended: the accepted-with-unvalidated-remainder case at
the concrete condition x$5. -/
theorem setCondition_characterization_witness :
    ({} : Alert).setCondition ("x" ++ ⟨['$', '5']⟩) =
      .ok { condition := some ⟨"x" ++ ⟨['$', '5']⟩, "x", ⟨['$', '5']⟩⟩ } :=
  (setCondition_characterization {}).2.2 "x" '$' ['5']
    (by decide) (by decide) (by decide)

/-- C6 (code_bug): exporting any manager holding at least one rule with
to_json and importing through from_json does not reproduce the rule set:
from_dict expects dict records but to_json serialized each rule as a JSON
string, so the import raises TypeError on the first record. -/
theorem to_from_json_raises_typeError (a : Alert) (rest : List Alert)
    (g : Bool) (now : Int) :
    AlertManager.from_json_value
        (AlertManager.to_json_value ⟨a :: rest, g⟩) now =
      .error (.typeError "Data must be a dictionary.") := by
  rfl

end MqttAlert
